import Mathlib

/-!
Shallow embedding of the Prophet forecasting Flask backend of this
repository (`backend/app.py`, `backend/sample_data.py`).

Dates are modelled as integers (days); quantities and predictions as
rationals.  The Prophet library is external to the repository, so the
model's per-date output is an arbitrary parameter of type `Predictor`;
the service's own post-processing (future-date construction, filtering to
dates after the last observation, clamping at zero, rounding to two
decimals) is embedded from `generate_forecast_for_sku`.  The Supabase
tables are external services: the `forecast_cache` table, which has a
unique `sku` column and is written with `upsert(..., on_conflict='sku')`,
is modelled as an association list with an overwrite-or-append write.
-/

namespace ProphetApi

/-- Python `round` to an integer: ties-to-even (banker's rounding). -/
def pyRound (q : ℚ) : ℤ :=
  let f : ℤ := ⌊q⌋
  if q - f < 1/2 then f
  else if (1 : ℚ)/2 < q - f then f + 1
  else if f % 2 = 0 then f else f + 1

/-- Python `round(x, 2)`: round to two decimal places. -/
def round2 (q : ℚ) : ℚ := (pyRound (q * 100) : ℚ) / 100

section AList

variable {α : Type}

/-! ### Association lists (Python dicts / the keyed Supabase cache table) -/

/-- Lookup by key, Python `d[k]` / `k in d`. -/
def alookup (s : String) : List (String × α) → Option α
  | [] => none
  | (k, v) :: xs => if k = s then some v else alookup s xs

/-- Python dict assignment `d[k] = v`: replace the binding if the key is
present, append it otherwise.  Also models the Supabase
`upsert(..., on_conflict='sku')` write against a column with a unique
constraint. -/
def ainsert (s : String) (v : α) : List (String × α) → List (String × α)
  | [] => [(s, v)]
  | (k, w) :: xs => if k = s then (s, v) :: xs else (k, w) :: ainsert s v xs

/-- The keys of an association list. -/
def akeys (l : List (String × α)) : List String := l.map Prod.fst

end AList

/-! ### The forecast kernel: `generate_forecast_for_sku` (app.py 143-184) -/

/-- A time series: (date, observed quantity) pairs, the `ds`/`y` columns. -/
abbrev Series := List (ℤ × ℚ)

/-- The external Prophet model, abstracted: for each date of the future
frame it yields `(yhat, yhat_lower, yhat_upper)`. -/
abbrev Predictor := ℤ → ℚ × ℚ × ℚ

/-- A formatted forecast point, one element of the JSON `forecast` list. -/
structure ForecastPoint where
  ds : ℤ
  yhat : ℚ
  yhat_lower : ℚ
  yhat_upper : ℚ
  deriving DecidableEq, Repr

/-- pandas `.max()` over a column. -/
def listMax : List ℤ → Option ℤ
  | [] => none
  | x :: xs =>
    match listMax xs with
    | none => some x
    | some m => some (max x m)

/-- Prophet `make_future_dataframe(periods, freq)`, future part only: the
`periods` dates `last + freq, ..., last + periods * freq`, each strictly
after the last training date.  `freq` is the length of one period in days
(`'D'` is 1). -/
def future_dates (last : ℤ) (periods freq : ℕ) : List ℤ :=
  (List.range periods).map (fun (k : ℕ) => last + ((k : ℤ) + 1) * (freq : ℤ))

/-- `generate_forecast_for_sku(df, periods, frequency)` (app.py 143-184):
`None` when fewer than two points; otherwise predict over the history
dates plus `periods` future dates, keep the rows with `ds > last_date`,
and format each kept row with `round(max(0, v), 2)` per field.  The
`getD 0` default of `last_date` is dead code: the column is nonempty in
the branch that reads it. -/
def generate_forecast_for_sku (predict : Predictor) (df : Series)
    (periods freq : ℕ) : Option (List ForecastPoint) :=
  if df.length < 2 then none
  else
    let last := (listMax (df.map Prod.fst)).getD 0
    let future := df.map Prod.fst ++ future_dates last periods freq
    let rows := future.map (fun d => (d, predict d))
    let kept := rows.filter (fun r => decide (last < r.1))
    some (kept.map (fun r =>
      { ds := r.1
        yhat := round2 (max 0 r.2.1)
        yhat_lower := round2 (max 0 r.2.2.1)
        yhat_upper := round2 (max 0 r.2.2.2) }))

/-! ### The forecast cache (Supabase `forecast_cache`, app.py 105-140) -/

/-- The `forecast_cache` table: rows keyed by the unique `sku` column,
carrying the predictions and the `generated_at` timestamp. -/
abbrev Cache := List (String × (List ForecastPoint × ℤ))

/-- `save_forecast_to_cache(sku, predictions)` (app.py 123-140).
`client` is whether `get_supabase_client()` yields a client: without one
the write is skipped and `False` returned; otherwise the row is upserted
with `on_conflict='sku'`. -/
def save_forecast_to_cache (client : Bool) (now : ℤ) (sku : String)
    (predictions : List ForecastPoint) (c : Cache) : Bool × Cache :=
  if client then (true, ainsert sku (predictions, now) c)
  else (false, c)

/-- The rows of the cache matching an optional SKU filter
(the `.eq('sku', sku)` query vs. `select('*')`, app.py 112-115). -/
def cacheRows (sku : Option String) (c : Cache) : Cache :=
  match sku with
  | some s => c.filter (fun p => p.1 == s)
  | none => c

/-- `get_cached_forecast(sku)` (app.py 105-120): `None` without a client,
`None` when no row matches, otherwise the matching rows. -/
def get_cached_forecast (client : Bool) (sku : Option String) (c : Cache) :
    Option Cache :=
  if client then
    let rows := cacheRows sku c
    if rows.isEmpty then none else some rows
  else none

/-! ### `POST /api/forecast` (app.py 292-353) -/

/-- The parsed request body: `sales_data` is `none` when the key is
absent and `some []` when present but empty (falsy in Python). -/
structure ForecastRequest where
  sales_data : Option Series
  sku : Option String
  periods : ℕ
  frequency : ℕ

/-- The JSON envelope of `POST /api/forecast` with its HTTP status. -/
structure ForecastResponse where
  status : ℕ
  success : Bool
  error : Option String
  forecast : Option (List ForecastPoint)
  deriving DecidableEq, Repr

/-- `fetch_sales_data_from_supabase()` abstracted to its result: `none`
for no client / no rows / an exception, otherwise per-SKU series.  The
Python `if sales_data and data['sku'] in sales_data` treats an empty
dict as falsy, so an empty result also fails the lookup. -/
def fetchHas (fetch : Option (List (String × Series))) (s : String) :
    Option Series :=
  match fetch with
  | none => none
  | some sd => if sd.isEmpty then none else alookup s sd

/-- The data-selection branches of the `forecast` handler
(app.py 307-324): inline `sales_data` when present and truthy, else the
SKU lookup, else 400. -/
def forecast_df_from_sku (fetch : Option (List (String × Series)))
    (req : ForecastRequest) : Except ForecastResponse Series :=
  match req.sku with
  | some s =>
    match fetchHas fetch s with
    | some df => .ok df
    | none => .error ⟨400, false, some ("No sales data for SKU: " ++ s), none⟩
  | none =>
    .error ⟨400, false,
      some "Must provide either \x27sales_data\x27 or \x27sku\x27", none⟩

def forecast_df_from_request (fetch : Option (List (String × Series)))
    (req : ForecastRequest) : Except ForecastResponse Series :=
  match req.sales_data with
  | some sd => if sd.isEmpty then forecast_df_from_sku fetch req else .ok sd
  | none => forecast_df_from_sku fetch req

/-- The `forecast` handler (app.py 292-353).  A truthy forecast list
yields 200 (after caching under the SKU when one was named); a `None` or
empty result yields 500 "Failed to generate forecast". -/
def forecast_handler (client : Bool) (now : ℤ) (predict : Predictor)
    (fetch : Option (List (String × Series))) (req : ForecastRequest)
    (c : Cache) : ForecastResponse × Cache :=
  match forecast_df_from_request fetch req with
  | .error resp => (resp, c)
  | .ok df =>
    match generate_forecast_for_sku predict df req.periods req.frequency with
    | some pts =>
      if pts.isEmpty then
        (⟨500, false, some "Failed to generate forecast", none⟩, c)
      else
        let c2 := match req.sku with
          | some s => (save_forecast_to_cache client now s pts c).2
          | none => c
        (⟨200, true, none, some pts⟩, c2)
    | none => (⟨500, false, some "Failed to generate forecast", none⟩, c)

/-! ### `GET|POST /api/forecast/refresh` (app.py 225-289) -/

structure RefreshRequest where
  periods : ℕ
  frequency : ℕ
  skus : List String

/-- The JSON envelope of the refresh / batch endpoint. -/
structure RefreshResponse where
  status : ℕ
  success : Bool
  error : Option String
  forecasts : List (String × List ForecastPoint)
  errors : Option (List (String × String))
  deriving DecidableEq, Repr

/-- One iteration of the refresh loop (app.py 256-269): no data for the
SKU or a falsy forecast fills the error map, a truthy forecast fills the
forecast map and is saved to the cache. -/
def refresh_step (client : Bool) (now : ℤ) (predict : Predictor)
    (periods freq : ℕ) (sd : List (String × Series))
    (acc : List (String × List ForecastPoint) × List (String × String) × Cache)
    (sku : String) :
    List (String × List ForecastPoint) × List (String × String) × Cache :=
  match alookup sku sd with
  | none => (acc.1, ainsert sku "No sales data for this SKU" acc.2.1, acc.2.2)
  | some df =>
    match generate_forecast_for_sku predict df periods freq with
    | some pts =>
      if pts.isEmpty then
        (acc.1, ainsert sku "Failed to generate forecast" acc.2.1, acc.2.2)
      else
        (ainsert sku pts acc.1, acc.2.1,
          (save_forecast_to_cache client now sku pts acc.2.2).2)
    | none =>
      (acc.1, ainsert sku "Failed to generate forecast" acc.2.1, acc.2.2)

/-- The outcome of the refresh loop for one SKU: its truthy forecast, or
`none` when it has no data or the forecast is falsy. -/
def sku_forecast_result (predict : Predictor) (periods freq : ℕ)
    (sd : List (String × Series)) (sku : String) :
    Option (List ForecastPoint) :=
  match alookup sku sd with
  | none => none
  | some df =>
    match generate_forecast_for_sku predict df periods freq with
    | some pts => if pts.isEmpty then none else some pts
    | none => none

/-- The `refresh_forecasts` handler (app.py 225-289): 400 when no sales
data is available, otherwise a 200 envelope with per-SKU forecasts and
per-SKU errors (`errors` is `None` when the map stayed empty). -/
def refresh_handler (client : Bool) (now : ℤ) (predict : Predictor)
    (fetch : Option (List (String × Series))) (req : RefreshRequest)
    (c : Cache) : RefreshResponse × Cache :=
  match fetch with
  | none =>
    (⟨400, false, some "No sales data available in Supabase", [], none⟩, c)
  | some sd =>
    if sd.isEmpty then
      (⟨400, false, some "No sales data available in Supabase", [], none⟩, c)
    else
      let targets := if req.skus.isEmpty then sd.map Prod.fst else req.skus
      let res := targets.foldl
        (refresh_step client now predict req.periods req.frequency sd)
        ([], [], c)
      (⟨200, true, none, res.1, if res.2.1.isEmpty then none else some res.2.1⟩,
        res.2.2)

/-! ### Sequences of cache operations (C6) -/

/-- The cache operations the service performs: the upsert write of
`save_forecast_to_cache` and the read of `get_cached_forecast`. -/
inductive CacheOp where
  | save (sku : String) (predictions : List ForecastPoint) (now : ℤ)
  | read (sku : Option String)

/-- A read leaves the table untouched; a write goes through
`save_forecast_to_cache`. -/
def applyCacheOp (client : Bool) (c : Cache) : CacheOp → Cache
  | .save sku preds now => (save_forecast_to_cache client now sku preds c).2
  | .read _ => c

def applyCacheOps (client : Bool) (c : Cache) (ops : List CacheOp) : Cache :=
  ops.foldl (applyCacheOp client) c

/-! ### `GET /api/forecast/cached` (app.py 199-222) -/

/-- The JSON envelope of the cached-forecast endpoint. -/
structure CachedResponse where
  status : ℕ
  success : Bool
  cached : Bool
  forecasts : List (String × List ForecastPoint)
  generated_at : List (String × ℤ)
  message : Option String
  deriving DecidableEq, Repr

/-- `get_cached_forecasts` (app.py 199-222): cached rows become a 200
envelope with `cached: true`; a missing client or an empty result
becomes a 200 envelope with `cached: false` and empty maps. -/
def get_cached_forecasts_handler (client : Bool) (sku : Option String)
    (c : Cache) : CachedResponse :=
  match get_cached_forecast client sku c with
  | some rows =>
    ⟨200, true, true, rows.map (fun p => (p.1, p.2.1)),
      rows.map (fun p => (p.1, p.2.2)), none⟩
  | none => ⟨200, true, false, [], [], some "No cached forecasts available"⟩

/-! ### `backend/sample_data.py` (C8) -/

/-- The SKU list of `generate_sample_data` (sample_data.py 17-26). -/
def skus : List String :=
  ["SKU-001234", "SKU-001235", "SKU-001236", "SKU-001237",
   "SKU-001238", "SKU-001239", "SKU-001240", "SKU-001241"]

/-- `base_rates` (sample_data.py 29-38), average units per day. -/
def base_rate (sku : String) : ℚ :=
  if sku = "SKU-001234" then 35/10
  else if sku = "SKU-001235" then 5
  else if sku = "SKU-001236" then 12/10
  else if sku = "SKU-001237" then 8/10
  else if sku = "SKU-001238" then 6/10
  else if sku = "SKU-001239" then 4/10
  else if sku = "SKU-001240" then 4
  else if sku = "SKU-001241" then 15/10
  else 0

/-- Month lengths of 2024 (a leap year): the generated range is
2024-01-01 .. 2024-12-31 (sample_data.py 41-43). -/
def monthLengths2024 : List ℕ := [31, 29, 31, 30, 31, 30, 31, 31, 30, 31, 30, 31]

/-- `len(dates)`: 366 days in 2024. -/
def daysIn2024 : ℕ := 366

def monthDayAux : ℕ → ℕ → List ℕ → ℕ × ℕ
  | m, i, [] => (m, i + 1)
  | m, i, L :: ls => if i < L then (m, i + 1) else monthDayAux (m + 1) (i - L) ls

/-- Month (1-12) and day-of-month (1-31) of the i-th day of 2024
(0-based). -/
def monthDay (i : ℕ) : ℕ × ℕ := monthDayAux 1 i monthLengths2024

/-- Python `date.weekday()`: Monday 0 .. Sunday 6; 2024-01-01 was a
Monday, so day `i` has weekday `i % 7`. -/
def weekday (i : ℕ) : ℕ := i % 7

/-- The SKUs that get the Q4 boost (sample_data.py 65). -/
def q4_skus : List String :=
  ["SKU-001234", "SKU-001235", "SKU-001236", "SKU-001238", "SKU-001241"]

/-- The body of the day loop (sample_data.py 51-76).  The draw `z`
stands for a standard normal sample, so `random.gauss(0, rate * 0.3)` is
`rate * 0.3 * z`. -/
def daily_sales (sku : String) (i : ℕ) (z : ℚ) : ℤ :=
  let r := base_rate sku
  let s0 : ℚ := max 0 (r + r * (3/10) * z)
  let s1 := if 5 ≤ weekday i then s0 * (13/10) else s0
  let md := monthDay i
  let s2 := if md.2 ≤ 3 ∨ 28 ≤ md.2 then s1 * (115/100) else s1
  let s3 := if (md.1 = 10 ∨ md.1 = 11 ∨ md.1 = 12) ∧ sku ∈ q4_skus
    then s2 * (14/10) else s2
  let s4 := if md.1 = 11 ∧ 22 ≤ md.2 ∧ md.2 ≤ 30 then s3 * 2 else s3
  let s5 := s4 * (1 + ((i : ℚ) / (daysIn2024 : ℚ)) * (1/10))
  pyRound s5

/-- The process-global `random` module state: an abstract stream of
standard normal draws and the position of the next one.  The module is
never seeded, so the position only ever advances. -/
structure RngState where
  draws : ℕ → ℚ
  pos : ℕ

/-- The draw consumed for the `si`-th SKU on day `i`: the nested loops
of `generate_sample_data` call `random.gauss` once per (SKU, date),
SKU-major in `skus` order, day-minor in date order
(sample_data.py 47-76). -/
def drawIndex (si i : ℕ) : ℕ := si * daysIn2024 + i

/-- One SKU's Prophet-format frame: (day index, rounded units sold). -/
def sku_series (g : RngState) (si : ℕ) (sku : String) : List (ℕ × ℤ) :=
  (List.range daysIn2024).map
    (fun i => (i, daily_sales sku i (g.draws (g.pos + drawIndex si i))))

/-- `generate_sample_data()` (sample_data.py 10-86): regenerates the
whole data set from the current RNG state, consuming one gaussian draw
per (SKU, day), and leaves the RNG advanced by `8 * 366` draws. -/
def generate_sample_data (g : RngState) :
    List (String × List (ℕ × ℤ)) × RngState :=
  (skus.enum.map (fun p => (p.2, sku_series g p.1 p.2)),
    ⟨g.draws, g.pos + skus.length * daysIn2024⟩)

/-- `get_sample_data_for_sku(sku)` (sample_data.py 89-92): calls
`generate_sample_data()` afresh — there is no memoisation — and looks
the SKU up, defaulting to an empty frame. -/
def get_sample_data_for_sku (sku : String) (g : RngState) :
    List (ℕ × ℤ) × RngState :=
  ((alookup sku (generate_sample_data g).1).getD [],
    (generate_sample_data g).2)

theorem pyRound_nonneg {q : ℚ} (h : 0 ≤ q) : 0 ≤ pyRound q := by
  have hf : (0 : ℤ) ≤ ⌊q⌋ := Int.floor_nonneg.mpr h
  unfold pyRound
  dsimp only
  split
  · exact hf
  · split
    · omega
    · split <;> omega

theorem round2_nonneg {q : ℚ} (h : 0 ≤ q) : 0 ≤ round2 q := by
  unfold round2
  have : (0 : ℤ) ≤ pyRound (q * 100) := pyRound_nonneg (by positivity)
  positivity

/-- `round2` always lands on a multiple of `1/100`. -/
theorem round2_eq_int_div (q : ℚ) : ∃ n : ℤ, round2 q = (n : ℚ) / 100 :=
  ⟨pyRound (q * 100), rfl⟩

section AListLemmas

variable {α : Type}

theorem alookup_ainsert_self (s : String) (v : α) (l : List (String × α)) :
    alookup s (ainsert s v l) = some v := by
  induction l with
  | nil => simp [ainsert, alookup]
  | cons p xs ih =>
    obtain ⟨k, w⟩ := p
    by_cases hk : k = s <;> simp [ainsert, alookup, hk, ih]

theorem alookup_ainsert_ne (s t : String) (v : α) (l : List (String × α))
    (h : t ≠ s) : alookup t (ainsert s v l) = alookup t l := by
  induction l with
  | nil => simp [ainsert, alookup, Ne.symm h]
  | cons p xs ih =>
    obtain ⟨k, w⟩ := p
    by_cases hk : k = s
    · subst hk
      simp [ainsert, alookup, Ne.symm h]
    · simp only [ainsert, if_neg hk, alookup]
      by_cases hkt : k = t
      · simp [hkt]
      · simp [hkt, ih]

theorem alookup_eq_none_of_not_mem_akeys (s : String) (l : List (String × α))
    (h : s ∉ akeys l) : alookup s l = none := by
  induction l with
  | nil => rfl
  | cons p xs ih =>
    obtain ⟨k, w⟩ := p
    simp only [akeys, List.map_cons, List.mem_cons, not_or] at h
    have hk : k ≠ s := fun hh => h.1 hh.symm
    simp [alookup, hk, ih h.2]

theorem mem_akeys_ainsert (s t : String) (v : α) (l : List (String × α)) :
    t ∈ akeys (ainsert s v l) ↔ t = s ∨ t ∈ akeys l := by
  induction l with
  | nil => simp [ainsert, akeys]
  | cons p xs ih =>
    obtain ⟨k, w⟩ := p
    by_cases hk : k = s
    · subst hk
      simp [ainsert, akeys]
      try tauto
    · simp only [ainsert, if_neg hk, akeys, List.map_cons, List.mem_cons] at *
      tauto

/-- A write never creates a second binding for a key that already has one:
distinctness of keys is preserved. -/
theorem akeys_nodup_ainsert (s : String) (v : α) (l : List (String × α))
    (h : (akeys l).Nodup) : (akeys (ainsert s v l)).Nodup := by
  induction l with
  | nil => simp [ainsert, akeys]
  | cons p xs ih =>
    obtain ⟨k, w⟩ := p
    simp only [akeys, List.map_cons, List.nodup_cons] at h
    by_cases hk : k = s
    · subst hk
      simpa [ainsert, akeys, List.nodup_cons] using h
    · simp only [ainsert, if_neg hk, akeys, List.map_cons, List.nodup_cons]
      refine ⟨?_, ih h.2⟩
      intro hmem
      rcases (mem_akeys_ainsert s k v xs).mp hmem with h1 | h1
      · exact hk h1
      · exact h.1 h1

theorem filter_key_of_alookup_none (s : String) (l : List (String × α))
    (h : alookup s l = none) : l.filter (fun p => p.1 == s) = [] := by
  induction l with
  | nil => rfl
  | cons p xs ih =>
    obtain ⟨k, w⟩ := p
    by_cases hk : k = s
    · simp [alookup, hk] at h
    · simp only [alookup, if_neg hk] at h
      have hb : ((k, w).1 == s) = false := beq_eq_false_iff_ne.mpr hk
      simp [List.filter_cons, hb, ih h]

theorem filter_key_of_alookup_some (s : String) (v : α) (l : List (String × α))
    (hnd : (akeys l).Nodup) (h : alookup s l = some v) :
    l.filter (fun p => p.1 == s) = [(s, v)] := by
  induction l with
  | nil => simp [alookup] at h
  | cons p xs ih =>
    obtain ⟨k, w⟩ := p
    simp only [akeys, List.map_cons, List.nodup_cons] at hnd
    by_cases hk : k = s
    · subst hk
      simp [alookup] at h
      subst h
      have hnone : alookup k xs = none :=
        alookup_eq_none_of_not_mem_akeys k xs hnd.1
      have hb : ((k, w).1 == k) = true := beq_self_eq_true k
      simp [List.filter_cons, hb, filter_key_of_alookup_none _ _ hnone]
    · simp only [alookup, if_neg hk] at h
      have hb : ((k, w).1 == s) = false := beq_eq_false_iff_ne.mpr hk
      simp [List.filter_cons, hb, ih hnd.2 h]

end AListLemmas

theorem listMax_isSome {l : List ℤ} (h : l ≠ []) : (listMax l).isSome := by
  cases l with
  | nil => exact absurd rfl h
  | cons x xs =>
    simp only [listMax]
    cases listMax xs <;> simp

theorem le_listMax {l : List ℤ} {y m : ℤ} (hy : y ∈ l) (hm : listMax l = some m) :
    y ≤ m := by
  induction l generalizing m with
  | nil => simp at hy
  | cons x xs ih =>
    simp only [listMax] at hm
    rcases List.mem_cons.mp hy with rfl | hy'
    · cases hx : listMax xs with
      | none => rw [hx] at hm; simp only [Option.some.injEq] at hm; omega
      | some m' =>
        rw [hx] at hm
        simp only [Option.some.injEq] at hm
        subst hm
        exact le_max_left _ _
    · cases hx : listMax xs with
      | none =>
        exfalso
        have hne : xs ≠ [] := by rintro rfl; simp at hy'
        have := listMax_isSome hne
        rw [hx] at this
        simp at this
      | some m' =>
        rw [hx] at hm
        simp only [Option.some.injEq] at hm
        subst hm
        exact le_trans (ih hy' hx) (le_max_right _ _)

theorem future_dates_length (last : ℤ) (periods freq : ℕ) :
    (future_dates last periods freq).length = periods := by
  unfold future_dates
  rw [List.length_map, List.length_range]

theorem lt_of_mem_future_dates {last d : ℤ} {periods freq : ℕ} (hf : 0 < freq)
    (hd : d ∈ future_dates last periods freq) : last < d := by
  unfold future_dates at hd
  rcases List.mem_map.mp hd with ⟨k, _, rfl⟩
  have h1 : (0 : ℤ) < ((k : ℤ) + 1) * (freq : ℤ) := by
    have hk1 : (0 : ℤ) < (k : ℤ) + 1 := by positivity
    have hfq : (0 : ℤ) < (freq : ℤ) := by exact_mod_cast hf
    exact mul_pos hk1 hfq
  linarith

/-- C1 — For every input series with at least 2 valid (date, quantity)
points, a forecast request returns exactly `periods` forecast points, and
every returned forecast date is strictly after the latest observed date
of the input series (`generate_forecast_for_sku`, app.py 143-184). -/
theorem forecast_returns_exactly_periods_points_after_last_date
    (predict : Predictor) (df : Series) (periods freq : ℕ)
    (h2 : 2 ≤ df.length) (hf : 0 < freq) :
    ∃ last pts,
      listMax (df.map Prod.fst) = some last ∧
      generate_forecast_for_sku predict df periods freq = some pts ∧
      pts.length = periods ∧
      ∀ p ∈ pts, last < p.ds := by
  have hne : df.map Prod.fst ≠ [] := by
    cases df with
    | nil => simp at h2
    | cons a l => simp
  obtain ⟨last, hlast⟩ := Option.isSome_iff_exists.mp (listMax_isSome hne)
  have hgen : generate_forecast_for_sku predict df periods freq =
      some ((((df.map Prod.fst ++ future_dates last periods freq).map
        (fun d => (d, predict d))).filter
          (fun r => decide (last < r.1))).map
        (fun r =>
          { ds := r.1
            yhat := round2 (max 0 r.2.1)
            yhat_lower := round2 (max 0 r.2.2.1)
            yhat_upper := round2 (max 0 r.2.2.2) })) := by
    unfold generate_forecast_for_sku
    rw [if_neg (show ¬df.length < 2 by omega)]
    simp only [hlast, Option.getD_some]
  refine ⟨last, _, hlast, hgen, ?_, ?_⟩
  · -- exactly `periods` points survive the `ds > last_date` filter
    have hhist : (df.map Prod.fst).filter (fun d => decide (last < d)) = [] := by
      apply List.filter_eq_nil_iff.mpr
      intro d hd
      simp only [decide_eq_true_eq]
      exact not_lt.mpr (le_listMax hd hlast)
    have hfut : (future_dates last periods freq).filter
        (fun d => decide (last < d)) = future_dates last periods freq := by
      apply List.filter_eq_self.mpr
      intro d hd
      simp only [decide_eq_true_eq]
      exact lt_of_mem_future_dates hf hd
    rw [List.length_map, List.filter_map, List.length_map]
    simp only [Function.comp_def]
    rw [List.filter_append, hhist, hfut]
    rw [List.nil_append]
    exact future_dates_length last periods freq
  · intro p hp
    rcases List.mem_map.mp hp with ⟨r, hr, rfl⟩
    have := (List.mem_filter.mp hr).2
    simpa using this

/-- C7 — Every forecast point returned by a forecast operation has its
point estimate, lower bound, and upper bound non-negative and equal to a
value rounded to two decimal places, i.e. an integer multiple of `1/100`
(`round(max(0, v), 2)`, app.py 172-179). -/
theorem forecast_points_nonneg_and_two_decimal
    (predict : Predictor) (df : Series) (periods freq : ℕ)
    (pts : List ForecastPoint)
    (h : generate_forecast_for_sku predict df periods freq = some pts) :
    ∀ p ∈ pts,
      (0 ≤ p.yhat ∧ ∃ n : ℤ, p.yhat = (n : ℚ) / 100) ∧
      (0 ≤ p.yhat_lower ∧ ∃ n : ℤ, p.yhat_lower = (n : ℚ) / 100) ∧
      (0 ≤ p.yhat_upper ∧ ∃ n : ℤ, p.yhat_upper = (n : ℚ) / 100) := by
  unfold generate_forecast_for_sku at h
  by_cases hlen : df.length < 2
  · rw [if_pos hlen] at h
    exact absurd h (by simp)
  · rw [if_neg hlen] at h
    simp only [Option.some.injEq] at h
    subst h
    intro p hp
    rcases List.mem_map.mp hp with ⟨r, _, rfl⟩
    exact ⟨⟨round2_nonneg (le_max_left 0 _), round2_eq_int_div _⟩,
      ⟨round2_nonneg (le_max_left 0 _), round2_eq_int_div _⟩,
      ⟨round2_nonneg (le_max_left 0 _), round2_eq_int_div _⟩⟩

/-- C2 counterexample — a forecast request whose inline series has a
single point is answered 500 "Failed to generate forecast", not 400
"need at least 2 data points." (app.py 150-151 returns `None`, and the
handler maps every generation failure to 500, app.py 342-346). -/
theorem short_series_request_gets_500_not_400 :
    (forecast_handler false 0 (fun _ => (0, 0, 0)) none
        ⟨some [(0, 1)], none, 90, 1⟩ []).1 =
      ⟨500, false, some "Failed to generate forecast", none⟩ ∧
    (forecast_handler false 0 (fun _ => (0, 0, 0)) none
        ⟨some [(0, 1)], none, 90, 1⟩ []).1.status ≠ 400 ∧
    (forecast_handler false 0 (fun _ => (0, 0, 0)) none
        ⟨some [(0, 1)], none, 90, 1⟩ []).1.error ≠
      some "need at least 2 data points." := by
  refine ⟨?_, ?_, ?_⟩ <;>
    norm_num [forecast_handler, forecast_df_from_request, forecast_df_from_sku,
      generate_forecast_for_sku]
  decide

/-- C2 amended — every forecast request whose input series reaches the
generation step with fewer than 2 points is answered HTTP 500 with error
"Failed to generate forecast" (never 400): the 2-point check in
`generate_forecast_for_sku` returns `None` and the handler maps all
generation failures to 500. -/
theorem short_series_request_gets_500
    (client : Bool) (now : ℤ) (predict : Predictor)
    (fetch : Option (List (String × Series))) (req : ForecastRequest)
    (c : Cache) (sd : Series)
    (hs : req.sales_data = some sd) (hne : sd ≠ []) (hlen : sd.length < 2) :
    (forecast_handler client now predict fetch req c).1 =
      ⟨500, false, some "Failed to generate forecast", none⟩ := by
  have hemp : sd.isEmpty = false := by
    cases sd with
    | nil => exact absurd rfl hne
    | cons a l => rfl
  unfold forecast_handler forecast_df_from_request
  rw [hs]
  simp only [hemp, Bool.false_eq_true, if_false]
  unfold generate_forecast_for_sku
  rw [if_pos hlen]

/-- C3 — a `POST /api/forecast` request naming a SKU that has no sales
data (and no truthy inline `sales_data`) is answered HTTP 400 with the
unknown-SKU message "No sales data for SKU: {sku}" (app.py 310-319). -/
theorem unknown_sku_request_gets_400
    (client : Bool) (now : ℤ) (predict : Predictor)
    (fetch : Option (List (String × Series))) (req : ForecastRequest)
    (c : Cache) (s : String)
    (hsku : req.sku = some s)
    (hsd : req.sales_data = none ∨ req.sales_data = some [])
    (hfetch : fetchHas fetch s = none) :
    (forecast_handler client now predict fetch req c).1 =
      ⟨400, false, some ("No sales data for SKU: " ++ s), none⟩ := by
  unfold forecast_handler forecast_df_from_request forecast_df_from_sku
  rcases hsd with h | h <;> rw [h] <;> simp [hsku, hfetch]

/-- C10 — a `POST /api/forecast` request that supplies truthy inline
`sales_data` and no `sku` never writes the cache: the cache state after
handling the request is the state before it, also on success
(the save is guarded by `if 'sku' in data`, app.py 330-331). -/
theorem inline_request_leaves_cache_unchanged
    (client : Bool) (now : ℤ) (predict : Predictor)
    (fetch : Option (List (String × Series))) (req : ForecastRequest)
    (c : Cache) (sd : Series)
    (hs : req.sales_data = some sd) (hne : sd ≠ [])
    (hsku : req.sku = none) :
    (forecast_handler client now predict fetch req c).2 = c := by
  have hemp : sd.isEmpty = false := by
    cases sd with
    | nil => exact absurd rfl hne
    | cons a l => rfl
  unfold forecast_handler forecast_df_from_request
  rw [hs]
  simp only [hemp, Bool.false_eq_true, if_false]
  cases hgen : generate_forecast_for_sku predict sd req.periods req.frequency with
  | none => simp
  | some pts =>
    by_cases hpe : pts.isEmpty = true <;> simp [hpe, hsku]

theorem sku_forecast_result_eq_some {predict : Predictor} {periods freq : ℕ}
    {sd : List (String × Series)} {sku : String} {pts : List ForecastPoint}
    (h : sku_forecast_result predict periods freq sd sku = some pts) :
    ∃ df, alookup sku sd = some df ∧
      generate_forecast_for_sku predict df periods freq = some pts ∧
      pts.isEmpty = false := by
  unfold sku_forecast_result at h
  split at h
  · exact absurd h (by simp)
  · rename_i df hd
    split at h
    · rename_i qts hg
      split at h
      · exact absurd h (by simp)
      · rename_i hpe
        have hpe2 : qts.isEmpty = false := by simpa using hpe
        simp only [Option.some.injEq] at h
        subst h
        exact ⟨df, hd, hg, hpe2⟩
    · exact absurd h (by simp)

/-- A loop iteration for a SKU with a truthy forecast: insert into the
forecast map and write the cache. -/
theorem refresh_step_of_result_some {client : Bool} {now : ℤ}
    {predict : Predictor} {periods freq : ℕ} {sd : List (String × Series)}
    (acc : List (String × List ForecastPoint) × List (String × String) × Cache)
    {sku : String} {pts : List ForecastPoint}
    (h : sku_forecast_result predict periods freq sd sku = some pts) :
    refresh_step client now predict periods freq sd acc sku =
      (ainsert sku pts acc.1, acc.2.1,
        (save_forecast_to_cache client now sku pts acc.2.2).2) := by
  obtain ⟨df, hd, hg, hpe⟩ := sku_forecast_result_eq_some h
  simp [refresh_step, hd, hg, hpe]

/-- A loop iteration for a SKU whose outcome is a failure: only the
error map changes. -/
theorem refresh_step_of_result_none {client : Bool} {now : ℤ}
    {predict : Predictor} {periods freq : ℕ} {sd : List (String × Series)}
    (acc : List (String × List ForecastPoint) × List (String × String) × Cache)
    {sku : String}
    (h : sku_forecast_result predict periods freq sd sku = none) :
    ∃ msg, refresh_step client now predict periods freq sd acc sku =
      (acc.1, ainsert sku msg acc.2.1, acc.2.2) := by
  unfold sku_forecast_result at h
  split at h
  · rename_i hd
    exact ⟨"No sales data for this SKU", by simp [refresh_step, hd]⟩
  · rename_i df hd
    split at h
    · rename_i qts hg
      split at h
      · rename_i hpe
        exact ⟨"Failed to generate forecast",
          by simp [refresh_step, hd, hg, hpe]⟩
      · exact absurd h (by simp)
    · rename_i hg
      exact ⟨"Failed to generate forecast", by simp [refresh_step, hd, hg]⟩

/-- Each loop iteration either records the SKU's truthy forecast (and
writes the cache) or records an error message for it. -/
theorem refresh_step_cases (client : Bool) (now : ℤ) (predict : Predictor)
    (periods freq : ℕ) (sd : List (String × Series))
    (acc : List (String × List ForecastPoint) × List (String × String) × Cache)
    (sku : String) :
    (∃ pts, sku_forecast_result predict periods freq sd sku = some pts ∧
      refresh_step client now predict periods freq sd acc sku =
        (ainsert sku pts acc.1, acc.2.1,
          (save_forecast_to_cache client now sku pts acc.2.2).2)) ∨
    (∃ msg, sku_forecast_result predict periods freq sd sku = none ∧
      refresh_step client now predict periods freq sd acc sku =
        (acc.1, ainsert sku msg acc.2.1, acc.2.2)) := by
  cases hres : sku_forecast_result predict periods freq sd sku with
  | some pts => exact Or.inl ⟨pts, rfl, refresh_step_of_result_some acc hres⟩
  | none =>
    obtain ⟨msg, hm⟩ := refresh_step_of_result_none acc hres
    exact Or.inr ⟨msg, rfl, hm⟩

/-- The forecast map only ever holds values produced by
`sku_forecast_result`, and such an entry, once present, survives the
rest of the loop unchanged. -/
theorem refresh_fold_forecasts (client : Bool) (now : ℤ) (predict : Predictor)
    (periods freq : ℕ) (sd : List (String × Series)) (targets : List String)
    (fs : List (String × List ForecastPoint)) (es : List (String × String))
    (c : Cache)
    (hgood : ∀ t pts, alookup t fs = some pts →
      sku_forecast_result predict periods freq sd t = some pts) :
    (∀ t pts,
      alookup t (targets.foldl
        (refresh_step client now predict periods freq sd) (fs, es, c)).1 =
          some pts →
      sku_forecast_result predict periods freq sd t = some pts) ∧
    (∀ t pts, alookup t fs = some pts →
      alookup t (targets.foldl
        (refresh_step client now predict periods freq sd) (fs, es, c)).1 =
          some pts) := by
  induction targets generalizing fs es c with
  | nil => exact ⟨hgood, fun t pts h => h⟩
  | cons sku rest ih =>
    rw [List.foldl_cons]
    rcases refresh_step_cases client now predict periods freq sd (fs, es, c)
        sku with ⟨pts, hres, hstep⟩ | ⟨msg, _, hstep⟩
    · rw [hstep]
      have hgood2 : ∀ u q, alookup u (ainsert sku pts fs) = some q →
          sku_forecast_result predict periods freq sd u = some q := by
        intro u q hu
        by_cases hus : u = sku
        · subst hus
          rw [alookup_ainsert_self] at hu
          simp only [Option.some.injEq] at hu
          subst hu
          exact hres
        · rw [alookup_ainsert_ne _ _ _ _ hus] at hu
          exact hgood u q hu
      refine ⟨(ih _ _ _ hgood2).1, ?_⟩
      intro t q ht
      apply (ih _ _ _ hgood2).2
      by_cases hts : t = sku
      · subst hts
        rw [alookup_ainsert_self]
        have h1 := hgood t q ht
        rw [hres] at h1
        simp only [Option.some.injEq] at h1
        rw [h1]
      · rw [alookup_ainsert_ne _ _ _ _ hts]
        exact ht
    · rw [hstep]
      exact ih fs _ c hgood

/-- Every SKU the loop visits whose outcome is a truthy forecast ends up
in the forecast map with exactly that forecast. -/
theorem refresh_fold_visits (client : Bool) (now : ℤ) (predict : Predictor)
    (periods freq : ℕ) (sd : List (String × Series)) (targets : List String)
    (fs : List (String × List ForecastPoint)) (es : List (String × String))
    (c : Cache)
    (hgood : ∀ t pts, alookup t fs = some pts →
      sku_forecast_result predict periods freq sd t = some pts) :
    ∀ t ∈ targets, ∀ pts,
      sku_forecast_result predict periods freq sd t = some pts →
      alookup t (targets.foldl
        (refresh_step client now predict periods freq sd) (fs, es, c)).1 =
          some pts := by
  induction targets generalizing fs es c with
  | nil =>
    intro t ht
    simp at ht
  | cons sku rest ih =>
    intro t ht pts hres
    rw [List.foldl_cons]
    rcases List.mem_cons.mp ht with rfl | htr
    · -- the visit creates the entry; the tail of the loop keeps it
      rw [refresh_step_of_result_some (fs, es, c) hres]
      have hgood2 : ∀ u q, alookup u (ainsert t pts fs) = some q →
          sku_forecast_result predict periods freq sd u = some q := by
        intro u q hu
        by_cases hut : u = t
        · subst hut
          rw [alookup_ainsert_self] at hu
          simp only [Option.some.injEq] at hu
          subst hu
          exact hres
        · rw [alookup_ainsert_ne _ _ _ _ hut] at hu
          exact hgood u q hu
      exact (refresh_fold_forecasts client now predict periods freq sd rest
        _ _ _ hgood2).2 t pts (alookup_ainsert_self _ _ _)
    · -- t is visited later: step first, then the induction hypothesis
      rcases refresh_step_cases client now predict periods freq sd (fs, es, c)
          sku with ⟨qts, hres2, hstep⟩ | ⟨msg, _, hstep⟩
      · rw [hstep]
        have hgood2 : ∀ u q, alookup u (ainsert sku qts fs) = some q →
            sku_forecast_result predict periods freq sd u = some q := by
          intro u q hu
          by_cases hus : u = sku
          · subst hus
            rw [alookup_ainsert_self] at hu
            simp only [Option.some.injEq] at hu
            subst hu
            exact hres2
          · rw [alookup_ainsert_ne _ _ _ _ hus] at hu
            exact hgood u q hu
        exact ih _ _ _ hgood2 t htr pts hres
      · rw [hstep]
        exact ih fs _ c hgood t htr pts hres

/-- An error entry, once present, survives the rest of the loop, and
every SKU the loop visits whose outcome is a failure gets one. -/
theorem refresh_fold_errors (client : Bool) (now : ℤ) (predict : Predictor)
    (periods freq : ℕ) (sd : List (String × Series)) (targets : List String)
    (fs : List (String × List ForecastPoint)) (es : List (String × String))
    (c : Cache) :
    (∀ t, (alookup t es).isSome →
      (alookup t (targets.foldl
        (refresh_step client now predict periods freq sd)
          (fs, es, c)).2.1).isSome) ∧
    (∀ t ∈ targets, sku_forecast_result predict periods freq sd t = none →
      (alookup t (targets.foldl
        (refresh_step client now predict periods freq sd)
          (fs, es, c)).2.1).isSome) := by
  induction targets generalizing fs es c with
  | nil =>
    refine ⟨fun t h => h, ?_⟩
    intro t ht
    simp at ht
  | cons sku rest ih =>
    rw [List.foldl_cons]
    rcases refresh_step_cases client now predict periods freq sd (fs, es, c)
        sku with ⟨pts, hres, hstep⟩ | ⟨msg, hres, hstep⟩
    · rw [hstep]
      refine ⟨fun t h => (ih _ _ _).1 t h, ?_⟩
      intro t ht hnone
      rcases List.mem_cons.mp ht with rfl | htr
      · rw [hres] at hnone
        exact absurd hnone (by simp)
      · exact (ih _ _ _).2 t htr hnone
    · rw [hstep]
      constructor
      · intro t h
        apply (ih _ _ _).1 t
        by_cases hts : t = sku
        · subst hts
          rw [alookup_ainsert_self]
          rfl
        · rw [alookup_ainsert_ne _ _ _ _ hts]
          exact h
      · intro t ht hnone
        rcases List.mem_cons.mp ht with rfl | htr
        · apply (ih _ _ _).1 t
          rw [alookup_ainsert_self]
          rfl
        · exact (ih _ _ _).2 t htr hnone

/-- C4 — the batch refresh isolates per-SKU failures: with sales data
available it always answers 200 with overall success, every requested
SKU whose forecast succeeds appears in the forecast map with exactly its
forecast, and every requested SKU that fails (no data, or a falsy
forecast) has an entry in the error map (app.py 250-282). -/
theorem batch_refresh_isolates_failures (client : Bool) (now : ℤ)
    (predict : Predictor) (sd : List (String × Series)) (req : RefreshRequest)
    (c : Cache) (hsd : sd ≠ []) :
    (refresh_handler client now predict (some sd) req c).1.status = 200 ∧
    (refresh_handler client now predict (some sd) req c).1.success = true ∧
    (∀ t ∈ (if req.skus.isEmpty then sd.map Prod.fst else req.skus),
      (∀ pts, sku_forecast_result predict req.periods req.frequency sd t =
          some pts →
        alookup t (refresh_handler client now predict (some sd) req c).1.forecasts
          = some pts) ∧
      (sku_forecast_result predict req.periods req.frequency sd t = none →
        ∃ errs, (refresh_handler client now predict (some sd) req c).1.errors =
            some errs ∧ (alookup t errs).isSome)) := by
  have hemp : sd.isEmpty = false := by
    cases sd with
    | nil => exact absurd rfl hsd
    | cons a l => rfl
  unfold refresh_handler
  simp only [hemp, Bool.false_eq_true, if_false]
  refine ⟨by trivial, by trivial, ?_⟩
  intro t ht
  constructor
  · intro pts hres
    exact refresh_fold_visits client now predict req.periods req.frequency sd
      _ [] [] c (by intro u qts h; simp [alookup] at h) t ht pts hres
  · intro hres
    have hfold := refresh_fold_errors client now predict req.periods
      req.frequency sd (if req.skus.isEmpty then sd.map Prod.fst else req.skus)
      [] [] c
    have hsome := hfold.2 t ht hres
    rcases Option.isSome_iff_exists.mp hsome with ⟨msg, hmsg⟩
    have hne2 : ((if req.skus.isEmpty then sd.map Prod.fst
        else req.skus).foldl
          (refresh_step client now predict req.periods req.frequency sd)
          ([], [], c)).2.1.isEmpty = false := by
      cases hl : ((if req.skus.isEmpty then sd.map Prod.fst
          else req.skus).foldl
            (refresh_step client now predict req.periods req.frequency sd)
            ([], [], c)).2.1 with
      | nil => rw [hl] at hmsg; simp [alookup] at hmsg
      | cons a l => rfl
    simp only [hne2, Bool.false_eq_true, if_false]
    refine ⟨_, rfl, ?_⟩
    exact Option.isSome_iff_exists.mpr ⟨msg, hmsg⟩

theorem save_forecast_to_cache_snd (client : Bool) (now : ℤ) (sku : String)
    (pts : List ForecastPoint) (c : Cache) :
    (save_forecast_to_cache client now sku pts c).2 =
      if client then ainsert sku (pts, now) c else c := by
  unfold save_forecast_to_cache
  cases client <;> simp

/-- With a Supabase client, every entry of the forecast map built by the
refresh loop has a matching cache row with exactly the same predictions. -/
theorem refresh_fold_cache (now : ℤ) (predict : Predictor)
    (periods freq : ℕ) (sd : List (String × Series)) (targets : List String)
    (fs : List (String × List ForecastPoint)) (es : List (String × String))
    (c : Cache)
    (hinv : ∀ t pts, alookup t fs = some pts →
      ∃ ts, alookup t c = some (pts, ts)) :
    ∀ t pts,
      alookup t (targets.foldl
        (refresh_step true now predict periods freq sd) (fs, es, c)).1 =
          some pts →
      ∃ ts, alookup t (targets.foldl
        (refresh_step true now predict periods freq sd) (fs, es, c)).2.2 =
          some (pts, ts) := by
  induction targets generalizing fs es c with
  | nil => exact hinv
  | cons sku rest ih =>
    rw [List.foldl_cons]
    rcases refresh_step_cases true now predict periods freq sd (fs, es, c)
        sku with ⟨pts, _, hstep⟩ | ⟨msg, _, hstep⟩
    · rw [hstep]
      apply ih
      intro u q hu
      by_cases hus : u = sku
      · subst hus
        rw [alookup_ainsert_self] at hu
        simp only [Option.some.injEq] at hu
        subst hu
        refine ⟨now, ?_⟩
        rw [save_forecast_to_cache_snd]
        simp only [if_true]
        exact alookup_ainsert_self _ _ _
      · rw [alookup_ainsert_ne _ _ _ _ hus] at hu
        obtain ⟨ts, hts⟩ := hinv u q hu
        refine ⟨ts, ?_⟩
        rw [save_forecast_to_cache_snd]
        simp only [if_true]
        rw [alookup_ainsert_ne _ _ _ _ hus]
        exact hts
    · rw [hstep]
      exact ih fs _ c hinv

/-- The refresh loop preserves distinctness of the cache's SKU keys. -/
theorem refresh_fold_cache_nodup (client : Bool) (now : ℤ)
    (predict : Predictor) (periods freq : ℕ) (sd : List (String × Series))
    (targets : List String) (fs : List (String × List ForecastPoint))
    (es : List (String × String)) (c : Cache) (h : (akeys c).Nodup) :
    (akeys (targets.foldl
      (refresh_step client now predict periods freq sd)
        (fs, es, c)).2.2).Nodup := by
  induction targets generalizing fs es c with
  | nil => exact h
  | cons sku rest ih =>
    rw [List.foldl_cons]
    rcases refresh_step_cases client now predict periods freq sd (fs, es, c)
        sku with ⟨pts, _, hstep⟩ | ⟨msg, _, hstep⟩
    · rw [hstep]
      apply ih
      rw [save_forecast_to_cache_snd]
      split
      · exact akeys_nodup_ainsert _ _ _ h
      · exact h
    · rw [hstep]
      exact ih fs _ c h

/-- C5 — refresh-then-cached-read round-trip: with a Supabase client and
a cache table whose SKU keys are distinct (its unique-column invariant),
every SKU the refresh reports a forecast for can be read back from the
cache afterwards, and the read returns exactly the forecast point list
the refresh wrote (app.py 105-140, 250-282). -/
theorem refresh_then_cached_read_roundtrip (now : ℤ) (predict : Predictor)
    (fetch : Option (List (String × Series))) (req : RefreshRequest)
    (c : Cache) (sku : String) (F : List ForecastPoint)
    (hnd : (akeys c).Nodup)
    (h : alookup sku (refresh_handler true now predict fetch req c).1.forecasts
      = some F) :
    ∃ ts, get_cached_forecast true (some sku)
        (refresh_handler true now predict fetch req c).2 =
      some [(sku, (F, ts))] := by
  cases fetch with
  | none =>
    exfalso
    simp [refresh_handler, alookup] at h
  | some sd =>
    by_cases hemp : sd.isEmpty = true
    · exfalso
      simp [refresh_handler, hemp, alookup] at h
    · have hemp2 : sd.isEmpty = false := by simpa using hemp
      unfold refresh_handler at h ⊢
      simp only [hemp2, Bool.false_eq_true, if_false] at h ⊢
      obtain ⟨ts, hts⟩ := refresh_fold_cache now predict req.periods
        req.frequency sd _ [] [] c (by intro u q hu; simp [alookup] at hu)
        sku F h
      have hnd2 := refresh_fold_cache_nodup true now predict req.periods
        req.frequency sd (if req.skus.isEmpty then sd.map Prod.fst
          else req.skus) [] [] c hnd
      have hfilter := filter_key_of_alookup_some sku (F, ts) _ hnd2 hts
      refine ⟨ts, ?_⟩
      unfold get_cached_forecast cacheRows
      simp only [if_true]
      rw [hfilter]
      rfl

/-- C6 — the forecast cache holds at most one live record per SKU: a
write overwrites any existing record for its SKU instead of adding a
second one (`ainsert`, modelling `upsert(..., on_conflict='sku')`), so
distinctness of the SKU keys is preserved by every sequence of cache
operations (app.py 129-137). -/
theorem cache_at_most_one_record_per_sku (client : Bool) (c : Cache)
    (ops : List CacheOp) (h : (akeys c).Nodup) :
    (akeys (applyCacheOps client c ops)).Nodup := by
  induction ops generalizing c with
  | nil => exact h
  | cons op rest ih =>
    rw [applyCacheOps, List.foldl_cons]
    apply ih
    cases op with
    | read s => exact h
    | save sku preds now =>
      show (akeys (save_forecast_to_cache client now sku preds c).2).Nodup
      rw [save_forecast_to_cache_snd]
      split
      · exact akeys_nodup_ainsert _ _ _ h
      · exact h

/-- C9 — `GET /api/forecast/cached` never returns an error status: it
always answers 200 with success, and when the client is unavailable or
no row matches the requested SKU it answers with `cached: false` and an
empty forecasts map (app.py 105-120, 199-222). -/
theorem cached_endpoint_never_errors (client : Bool) (sku : Option String)
    (c : Cache)
    (h : client = false ∨ cacheRows sku c = []) :
    get_cached_forecasts_handler client sku c =
      ⟨200, true, false, [], [], some "No cached forecasts available"⟩ := by
  have hnone : get_cached_forecast client sku c = none := by
    unfold get_cached_forecast
    rcases h with h | h
    · rw [h]
      rfl
    · cases client with
      | false => rfl
      | true => simp [h]
  unfold get_cached_forecasts_handler
  rw [hnone]

theorem sku_series_head (g : RngState) (si : ℕ) (sku : String) :
    (sku_series g si sku).head? =
      some (0, daily_sales sku 0 (g.draws (g.pos + drawIndex si 0))) := by
  unfold sku_series
  rw [List.head?_map, show (List.range daysIn2024).head? = some 0 from by decide]
  rfl

/-- The generated frame for one SKU depends only on the draws the
process consumes for it. -/
theorem sku_series_congr (g₁ g₂ : RngState) (si : ℕ) (sku : String)
    (hsi : si < skus.length)
    (h : ∀ k < skus.length * daysIn2024,
      g₁.draws (g₁.pos + k) = g₂.draws (g₂.pos + k)) :
    sku_series g₁ si sku = sku_series g₂ si sku := by
  unfold sku_series
  apply List.map_congr_left
  intro i hi
  rw [List.mem_range] at hi
  have h8 : skus.length = 8 := by rfl
  have hk : drawIndex si i < skus.length * daysIn2024 := by
    unfold drawIndex daysIn2024 at *
    rw [h8] at hsi ⊢
    omega
  rw [h _ hk]

/-- C8 amended (part 1) — the sample-data generation is a deterministic
function of the RNG state at call time, and depends only on the
`8 * 366` draws it consumes: two calls whose RNG states agree on those
draws return identical data, and every call advances the RNG position by
exactly `8 * 366`. -/
theorem sample_data_depends_only_on_consumed_draws (g₁ g₂ : RngState)
    (h : ∀ k < skus.length * daysIn2024,
      g₁.draws (g₁.pos + k) = g₂.draws (g₂.pos + k)) :
    (generate_sample_data g₁).1 = (generate_sample_data g₂).1 ∧
    (generate_sample_data g₁).2.pos = g₁.pos + skus.length * daysIn2024 := by
  refine ⟨?_, rfl⟩
  show skus.enum.map (fun p => (p.2, sku_series g₁ p.1 p.2)) =
    skus.enum.map (fun p => (p.2, sku_series g₂ p.1 p.2))
  apply List.map_congr_left
  intro p hp
  have hsi : p.1 < skus.length := by
    simp only [skus, List.enum, List.enumFrom, List.mem_cons,
      List.mem_singleton, List.not_mem_nil, or_false] at hp
    rcases hp with rfl | rfl | rfl | rfl | rfl | rfl | rfl | rfl <;> decide
  rw [sku_series_congr g₁ g₂ p.1 p.2 hsi h]

/-- C8 counterexample — the sample-data accessor is not memoized and not
deterministic across calls: two successive calls within one process read
disjoint segments of the RNG stream, and on the stream `n ↦ n` starting
at position 0 they return different frames for `SKU-001234` (the first
call's first day rounds to 4 units, the second call's to 3540). -/
theorem sample_data_two_calls_differ :
    (get_sample_data_for_sku "SKU-001234" ⟨fun n => (n : ℚ), 0⟩).1 ≠
      (get_sample_data_for_sku "SKU-001234"
        (get_sample_data_for_sku "SKU-001234" ⟨fun n => (n : ℚ), 0⟩).2).1 := by
  have hl1 : (get_sample_data_for_sku "SKU-001234" ⟨fun n => (n : ℚ), 0⟩).1 =
      sku_series ⟨fun n => (n : ℚ), 0⟩ 0 "SKU-001234" := by
    simp [get_sample_data_for_sku, generate_sample_data, skus, List.enum,
      List.enumFrom, alookup]
  have hst : (get_sample_data_for_sku "SKU-001234" ⟨fun n => (n : ℚ), 0⟩).2 =
      ⟨fun n => (n : ℚ), 0 + skus.length * daysIn2024⟩ := rfl
  have hl2 : (get_sample_data_for_sku "SKU-001234"
      (get_sample_data_for_sku "SKU-001234" ⟨fun n => (n : ℚ), 0⟩).2).1 =
      sku_series ⟨fun n => (n : ℚ), 0 + skus.length * daysIn2024⟩ 0
        "SKU-001234" := by
    rw [hst]
    simp [get_sample_data_for_sku, generate_sample_data, skus, List.enum,
      List.enumFrom, alookup]
  have h1 : (sku_series ⟨fun n => (n : ℚ), 0⟩ 0 "SKU-001234").head? =
      some (0, 4) := by
    rw [sku_series_head]
    norm_num [daily_sales, base_rate, weekday, monthDay, monthDayAux,
      monthLengths2024, q4_skus, drawIndex, daysIn2024]
    norm_num [pyRound, Int.fract]
  have h2 : (sku_series ⟨fun n => (n : ℚ), 0 + skus.length * daysIn2024⟩ 0
      "SKU-001234").head? = some (0, 3540) := by
    rw [sku_series_head]
    norm_num [daily_sales, base_rate, weekday, monthDay, monthDayAux,
      monthLengths2024, q4_skus, drawIndex, daysIn2024, skus]
    norm_num [pyRound, Int.fract]
  intro hc
  rw [hl1, hl2] at hc
  rw [hc, h2] at h1
  simp at h1

/-- C8 amended, witness — two generations from RNG states with equal
draw streams agree, and the position advances by `8 * 366`. -/
theorem sample_data_witness :
    (generate_sample_data ⟨fun _ => 0, 0⟩).1 =
      (generate_sample_data ⟨fun _ => 0, 5⟩).1 ∧
    (generate_sample_data ⟨fun _ => 0, 0⟩).2.pos =
      0 + skus.length * daysIn2024 :=
  sample_data_depends_only_on_consumed_draws ⟨fun _ => 0, 0⟩ ⟨fun _ => 0, 5⟩
    (fun _ _ => rfl)

/-! ### Witnesses: the claim theorems applied at concrete inputs -/

/-- C1 witness — a 2-point series, 3 periods, daily frequency. -/
theorem forecast_periods_witness :
    ∃ last pts,
      listMax (([((0 : ℤ), (1 : ℚ)), (1, 2)] : Series).map Prod.fst) =
        some last ∧
      generate_forecast_for_sku (fun _ => (0, 0, 0))
        [((0 : ℤ), (1 : ℚ)), (1, 2)] 3 1 = some pts ∧
      pts.length = 3 ∧
      ∀ p ∈ pts, last < p.ds :=
  forecast_returns_exactly_periods_points_after_last_date
    (fun _ => (0, 0, 0)) [((0 : ℤ), (1 : ℚ)), (1, 2)] 3 1
    (by norm_num) (by norm_num)

/-- C2 amended, witness — a 1-point inline series gets the 500 envelope. -/
theorem short_series_500_witness :
    (forecast_handler false 0 (fun _ => (0, 0, 0)) none
        ⟨some [(1, 1)], none, 90, 1⟩ []).1 =
      ⟨500, false, some "Failed to generate forecast", none⟩ :=
  short_series_request_gets_500 false 0 (fun _ => (0, 0, 0)) none
    ⟨some [(1, 1)], none, 90, 1⟩ [] [(1, 1)] rfl (by simp) (by norm_num)

/-- C3 witness — an unknown SKU gets the 400 envelope with its name. -/
theorem unknown_sku_400_witness :
    (forecast_handler false 0 (fun _ => (0, 0, 0)) none
        ⟨none, some "SKU-404", 90, 1⟩ []).1 =
      ⟨400, false, some ("No sales data for SKU: " ++ "SKU-404"), none⟩ :=
  unknown_sku_request_gets_400 false 0 (fun _ => (0, 0, 0)) none
    ⟨none, some "SKU-404", 90, 1⟩ [] "SKU-404" rfl (Or.inl rfl) rfl

/-- C4 witness — one valid SKU "A" and one unknown SKU "B" in a batch. -/
theorem batch_refresh_witness :
    (refresh_handler false 0 (fun _ => (0, 0, 0))
        (some [("A", [(0, 1), (1, 2)])]) ⟨1, 1, ["A", "B"]⟩ []).1.status =
      200 ∧
    (refresh_handler false 0 (fun _ => (0, 0, 0))
        (some [("A", [(0, 1), (1, 2)])]) ⟨1, 1, ["A", "B"]⟩ []).1.success =
      true ∧
    (∀ t ∈ (if (["A", "B"] : List String).isEmpty then
        ([("A", [((0 : ℤ), (1 : ℚ)), (1, 2)])] :
          List (String × Series)).map Prod.fst else ["A", "B"]),
      (∀ pts, sku_forecast_result (fun _ => (0, 0, 0)) 1 1
          [("A", [(0, 1), (1, 2)])] t = some pts →
        alookup t (refresh_handler false 0 (fun _ => (0, 0, 0))
          (some [("A", [(0, 1), (1, 2)])]) ⟨1, 1, ["A", "B"]⟩ []).1.forecasts
          = some pts) ∧
      (sku_forecast_result (fun _ => (0, 0, 0)) 1 1
          [("A", [(0, 1), (1, 2)])] t = none →
        ∃ errs, (refresh_handler false 0 (fun _ => (0, 0, 0))
            (some [("A", [(0, 1), (1, 2)])]) ⟨1, 1, ["A", "B"]⟩ []).1.errors =
          some errs ∧ (alookup t errs).isSome)) :=
  batch_refresh_isolates_failures false 0 (fun _ => (0, 0, 0))
    [("A", [(0, 1), (1, 2)])] ⟨1, 1, ["A", "B"]⟩ [] (by simp)

/-- C5 witness — refresh SKU "A", then read it back from the cache. -/
theorem refresh_roundtrip_witness :
    ∃ ts, get_cached_forecast true (some "A")
        (refresh_handler true 7 (fun _ => (1, 2, 3))
          (some [("A", [(0, 1), (1, 2)])]) ⟨1, 1, []⟩ []).2 =
      some [("A", ([⟨2, 1, 2, 3⟩], ts))] :=
  refresh_then_cached_read_roundtrip 7 (fun _ => (1, 2, 3))
    (some [("A", [(0, 1), (1, 2)])]) ⟨1, 1, []⟩ [] "A" [⟨2, 1, 2, 3⟩]
    (by simp [akeys])
    (by
      norm_num [refresh_handler, refresh_step, generate_forecast_for_sku,
        listMax, future_dates, save_forecast_to_cache, ainsert, alookup,
        List.filter, show List.range 1 = [0] from rfl]
      norm_num [round2, pyRound, Int.fract])

/-- C6 witness — two writes to the same SKU and a read keep the keys
distinct. -/
theorem cache_ops_witness :
    (akeys (applyCacheOps true [("B", ([], 0))]
      [CacheOp.save "A" [] 0, CacheOp.read none,
        CacheOp.save "A" [] 1])).Nodup :=
  cache_at_most_one_record_per_sku true [("B", ([], 0))]
    [CacheOp.save "A" [] 0, CacheOp.read none, CacheOp.save "A" [] 1]
    (by simp [akeys])

/-- C7 witness — the point generated from a 2-point series under a
predictor with a negative lower bound. -/
theorem forecast_point_witness :
    (0 ≤ (⟨2, 123/100, 0, 5/2⟩ : ForecastPoint).yhat ∧
      ∃ n : ℤ, (⟨2, 123/100, 0, 5/2⟩ : ForecastPoint).yhat = (n : ℚ) / 100) ∧
    (0 ≤ (⟨2, 123/100, 0, 5/2⟩ : ForecastPoint).yhat_lower ∧
      ∃ n : ℤ, (⟨2, 123/100, 0, 5/2⟩ : ForecastPoint).yhat_lower =
        (n : ℚ) / 100) ∧
    (0 ≤ (⟨2, 123/100, 0, 5/2⟩ : ForecastPoint).yhat_upper ∧
      ∃ n : ℤ, (⟨2, 123/100, 0, 5/2⟩ : ForecastPoint).yhat_upper =
        (n : ℚ) / 100) :=
  forecast_points_nonneg_and_two_decimal
    (fun _ => (123/100 + 1/625, -1, 5/2)) [(0, 1), (1, 2)] 1 1
    [⟨2, 123/100, 0, 5/2⟩]
    (by
      norm_num [generate_forecast_for_sku, future_dates, listMax,
        List.filter, show List.range 1 = [0] from rfl]
      norm_num [round2, pyRound, Int.fract])
    ⟨2, 123/100, 0, 5/2⟩ (by simp)

/-- C9 witness — no client: the 200 `cached: false` envelope. -/
theorem cached_endpoint_witness :
    get_cached_forecasts_handler false none [] =
      ⟨200, true, false, [], [], some "No cached forecasts available"⟩ :=
  cached_endpoint_never_errors false none [] (Or.inl rfl)

/-- C10 witness — an inline request leaves a pre-populated cache as it
was. -/
theorem inline_no_cache_write_witness :
    (forecast_handler true 0 (fun _ => (0, 0, 0)) none
        ⟨some [(0, 1), (1, 2)], none, 1, 1⟩ [("B", ([], 0))]).2 =
      [("B", ([], 0))] :=
  inline_request_leaves_cache_unchanged true 0 (fun _ => (0, 0, 0)) none
    ⟨some [(0, 1), (1, 2)], none, 1, 1⟩ [("B", ([], 0))] [(0, 1), (1, 2)]
    rfl (by simp) rfl

end ProphetApi
